import Mathlib

/-!
Shallow embedding of `src/notify.js` (the Desktop-Notification facade).

The source is a browser shim over four possible backends:
 * the standard constructor `window.Notification` (with optional
   `permissionLevel` method, `permission` property and `requestPermission`),
 * the vendor-prefixed factory `window.webkitNotifications`,
 * the mobile-vendor factory: detected via `navigator.mozNotification`
   (lines 46 and 118) but dispatched via `window.mozNotification` (line 175) —
   the two globals are modelled as distinct fields, as they are in a browser,
 * the IE host-shell object `window.external` with `msIsSiteMode` and the
   overlay operations.

JavaScript calls on absent properties throw; every place where the source
performs such a call (`msIsSiteMode()` in the probe and in
`permissionStatus`, `close()`/`cancel()` on a cached handle) is modelled
with `Except Unit` / explicit throw flags.  Side effects on the host
environment are recorded as an event trace.
-/

namespace DN

/-- A callback value handed to a backend: either the caller's function
(identified by a number) or the no-op substituted for a non-callable. -/
inductive CbV
  | noop
  | fn (id : Nat)
deriving DecidableEq

/-- Observable interactions with the host environment. -/
inductive Event
  | createWebkit (icon title message : String)
  | createMoz (title message icon : String)
  | createStd (title icon body : String)
  | overlayClear
  | overlayActivate
  | overlaySet (icon message : String)
  | handleClose
  | handleCancel
  | webkitRequestPermission (cb : CbV)
  | stdRequestPermission (cb : CbV)
deriving DecidableEq

/-- How a cached handle was created (lines 173, 177, 181–184). -/
inductive Creation
  | webkit (icon title message : String)
  | moz (title message icon : String)
  | std (title : String) (icon : String) (body : String)
deriving DecidableEq

/-- An opaque backend handle as the facade sees it: a possible `close`
method, a possible `cancel` method, and the three callback slots.  For the
dismissal methods, `none` means the method is absent, `some true` a method
that returns normally, `some false` one that throws when called. -/
structure Handle where
  made : Creation
  close : Option Bool
  cancel : Option Bool
  onclick : Option Nat
  onclose : Option Nat
  onshow : Option Nat
deriving DecidableEq

/-- `window.Notification`: optional `permissionLevel()` method (modelled by
the string it returns), optional `permission` property (may be the falsy
empty string), presence of `requestPermission`, and the dismissal
capabilities of handles produced by `new Notification(...)`. -/
structure NotifAPI where
  permissionLevel : Option String
  permission : Option String
  requestPermission : Bool
  newClose : Option Bool
  newCancel : Option Bool
deriving DecidableEq

/-- `window.webkitNotifications`: presence of `checkPermission`, and the
dismissal capabilities of handles produced by `createNotification`. -/
structure WebkitAPI where
  checkPermission : Bool
  newClose : Option Bool
  newCancel : Option Bool
deriving DecidableEq

/-- `window.mozNotification` (the window-level global consulted at line
175): dismissal capabilities of handles produced by `createNotification`. -/
structure MozAPI where
  newClose : Option Bool
  newCancel : Option Bool
deriving DecidableEq

/-- `window.external`: `msIsSiteMode` is `none` when the method is absent
(calling it then throws a TypeError), `some b` when it is callable and
reports site-mode state `b`. -/
structure External where
  msIsSiteMode : Option Bool
deriving DecidableEq

/-- The host environment: the globals the shim consults. -/
structure Env where
  notification : Option NotifAPI
  webkitNotifications : Option WebkitAPI
  navMozNotification : Bool
  winMozNotification : Option MozAPI
  external : Option External
deriving DecidableEq

/-- The facade's own mutable state: `this.supported` (JS `null` modelled as
`none`) and `this.cached`. -/
structure NotifyState where
  supported : Option Bool
  cached : List Handle
deriving DecidableEq

/-- `window.Notification && window.Notification.permissionLevel` gives
`some` exactly when the standard object is present with the method;
the value is what the call returns (line 111). -/
def Env.notifPermissionLevel (env : Env) : Option String :=
  env.notification.bind (fun n => n.permissionLevel)

/-- `window.Notification.permission` when the object is present. -/
def Env.notifPermission (env : Env) : Option String :=
  env.notification.bind (fun n => n.permission)

/-- Line 162 condition: `window.external && window.external.msIsSiteMode`
(property presence, no call). -/
def Env.extHasSiteModeFn (env : Env) : Bool :=
  match env.external with
  | some e => e.msIsSiteMode.isSome
  | none => false

/-- The raw probe expression of lines 44–48, before the try/catch:
`!!(window.Notification || window.webkitNotifications ||
navigator.mozNotification || (window.external && window.external.msIsSiteMode()
!== undefined))`.  The `||` chain short-circuits, so `msIsSiteMode()` is only
called when the first three are falsy and `window.external` is truthy; the
call throws when the method is absent. -/
def probeSupported (env : Env) : Except Unit Bool :=
  if env.notification.isSome || env.webkitNotifications.isSome
      || env.navMozNotification then
    Except.ok true
  else
    match env.external with
    | none => Except.ok false
    | some ext =>
      match ext.msIsSiteMode with
      | none => Except.error ()
      | some _ => Except.ok true

/-- `Notify.prototype.available` (lines 38–57): probe only while
`this.supported === null`, catch any probe exception as `false`, return
`Boolean(this.supported)`. -/
def Notify.available (env : Env) (st : NotifyState) : Bool × NotifyState :=
  match st.supported with
  | some b => (b, st)
  | none =>
    match probeSupported env with
    | Except.ok b => (b, { st with supported := some b })
    | Except.error _ => (false, { st with supported := some false })

/-- Result of `permissionStatus`: JS `false`, or the permission string. -/
inductive PermResult
  | unsupported
  | status (s : String)
deriving DecidableEq

/-- Lines 118–127: the tail of the `permissionStatus` chain after both
standard-object branches have failed.  Branch 4 calls
`window.external.msIsSiteMode()` with no guard and no try/catch: the call
throws when the method is absent.  When `window.external` is falsy the
variable keeps its initial value `''`. -/
def permChainRest (env : Env) : Except Unit String :=
  if env.navMozNotification then Except.ok "granted"
  else
    match env.external with
    | none => Except.ok ""
    | some ext =>
      match ext.msIsSiteMode with
      | none => Except.error ()
      | some b => Except.ok (if b then "granted" else "default")

/-- Lines 106–129: the if/else-if chain assigning `permission`.  Branch 2's
condition `window.Notification && window.Notification.permission` tests the
truthiness of the string, so an empty-string property falls through. -/
def permChain (env : Env) : Except Unit String :=
  match env.notifPermissionLevel with
  | some s => Except.ok s
  | none =>
    match env.notifPermission with
    | some p => if p = "" then permChainRest env else Except.ok p
    | none => permChainRest env

/-- `Notify.prototype.permissionStatus` (lines 99–130). -/
def Notify.permissionStatus (env : Env) (st : NotifyState) :
    Except Unit (PermResult × NotifyState) :=
  if (Notify.available env st).1 then
    match permChain env with
    | Except.ok s => Except.ok (PermResult.status s, (Notify.available env st).2)
    | Except.error e => Except.error e
  else
    Except.ok (PermResult.unsupported, (Notify.available env st).2)

/-- Line 72: `typeof callback === 'function' ? callback : function() {}` —
a non-callable argument is replaced by a no-op before delegation. -/
def toCallable : Option Nat → CbV
  | some f => CbV.fn f
  | none => CbV.noop

/-- `Notify.prototype.requestPermission` (lines 65–90): early return when
unavailable, replace a non-callable argument by a no-op, then delegate to
the webkit pair when `checkPermission` is present, else to the standard
`requestPermission` when present, else do nothing.  The callback is never
invoked synchronously; delegation is recorded as an event carrying the
callable that was handed over. -/
def Notify.requestPermission (env : Env) (st : NotifyState)
    (callback : Option Nat) : NotifyState × List Event :=
  if (Notify.available env st).1 then
    ((Notify.available env st).2,
     match env.webkitNotifications with
     | some wk =>
       if wk.checkPermission then
         [Event.webkitRequestPermission (toCallable callback)]
       else
         match env.notification with
         | some n =>
           if n.requestPermission then [Event.stdRequestPermission (toCallable callback)]
           else []
         | none => []
     | none =>
       match env.notification with
       | some n =>
         if n.requestPermission then [Event.stdRequestPermission (toCallable callback)]
         else []
       | none => [])
  else
    ((Notify.available env st).2, [])

/-- Lines 207–218: dismiss one cached handle (after its `onclose` slot was
detached): call `close` if present, else `cancel` if present, else — for a
handle with neither — call `window.external.msIsSiteMode()` and clear the
overlay when in site mode.  A call to an absent `msIsSiteMode`, or to a
`close`/`cancel` modelled as throwing, raises. -/
def dismissHandle (env : Env) (h : Handle) : Except Unit (List Event) :=
  match h.close with
  | some ok => if ok then Except.ok [Event.handleClose] else Except.error ()
  | none =>
    match h.cancel with
    | some ok => if ok then Except.ok [Event.handleCancel] else Except.error ()
    | none =>
      match env.external with
      | none => Except.ok []
      | some ext =>
        match ext.msIsSiteMode with
        | none => Except.error ()
        | some b => if b then Except.ok [Event.overlayClear] else Except.ok []

/-- The `forEach` of lines 204–219.  Each handle first has `onclose` set to
null (line 206), then is dismissed.  Returns the array contents as mutated
in place, the accumulated events, and whether a dismissal threw; on a throw
the remaining handles are not visited. -/
def removeAllLoop (env : Env) : List Handle → List Handle × List Event × Bool
  | [] => ([], [], false)
  | h :: rest =>
    let h1 := { h with onclose := none }
    match dismissHandle env h1 with
    | Except.ok evs =>
      let r := removeAllLoop env rest
      (h1 :: r.1, evs ++ r.2.1, r.2.2)
    | Except.error _ => (h1 :: rest, [], true)

/-- `Notify.prototype.removeAll` (lines 202–222).  The reset
`this.cached = []` (line 221) runs only when the `forEach` completes; when a
dismissal throws, the exception propagates and the cache keeps the mutated
array.  The first component records whether the call threw. -/
def Notify.removeAll (env : Env) (st : NotifyState) :
    Bool × NotifyState × List Event :=
  match removeAllLoop env st.cached with
  | (cache1, evs, true) => (true, { st with cached := cache1 }, evs)
  | (_, evs, false) => (false, { st with cached := [] }, evs)

/-- The `callbacks` argument of `send`: JS `undefined`/`null`/primitive
(boxed by `Object(...)` into a property-less object), or an object whose
three relevant properties are each a function (`some id`) or not. -/
inductive JSCallbacks
  | nonObject
  | obj (onclick onclose onshow : Option Nat)
deriving DecidableEq

/-- `typeof Object(callbacks).onclick === 'function' ? callbacks.onclick : null`. -/
def JSCallbacks.clickFn : JSCallbacks → Option Nat
  | JSCallbacks.nonObject => none
  | JSCallbacks.obj c _ _ => c

/-- `typeof Object(callbacks).onclose === 'function' ? callbacks.onclose : null`. -/
def JSCallbacks.closeFn : JSCallbacks → Option Nat
  | JSCallbacks.nonObject => none
  | JSCallbacks.obj _ c _ => c

/-- `typeof Object(callbacks).onshow === 'function' ? callbacks.onshow : null`. -/
def JSCallbacks.showFn : JSCallbacks → Option Nat
  | JSCallbacks.nonObject => none
  | JSCallbacks.obj _ _ c => c

/-- Return value of `send`: `notGranted` models the explicit `return false`
of line 152; `done` models the implicit `return undefined` of the
remaining paths. -/
inductive SendRes
  | notGranted
  | done
deriving DecidableEq

/-- The dispatch chain of lines 162–185: host-shell overlay branch when
`window.external.msIsSiteMode` is a present property (calling it inside),
else the webkit factory `createNotification(icon, title, message)`, else
the `window.mozNotification` factory `createNotification(title, message,
icon)`, else `new Notification(title, {icon: icon, body: message})`.
Returns the `notification` variable (a handle or `undefined`) and the
events produced. -/
def dispatchCreate (env : Env) (title message icon : String) :
    Option Handle × List Event :=
  if env.extHasSiteModeFn then
    match env.external with
    | some e =>
      match e.msIsSiteMode with
      | some true =>
        (none, [Event.overlayClear, Event.overlayActivate,
                Event.overlaySet icon message])
      | _ => (none, [])
    | none => (none, [])
  else
    match env.webkitNotifications with
    | some wk =>
      (some ⟨Creation.webkit icon title message, wk.newClose, wk.newCancel,
             none, none, none⟩,
       [Event.createWebkit icon title message])
    | none =>
      match env.winMozNotification with
      | some mz =>
        (some ⟨Creation.moz title message icon, mz.newClose, mz.newCancel,
               none, none, none⟩,
         [Event.createMoz title message icon])
      | none =>
        match env.notification with
        | some n =>
          (some ⟨Creation.std title icon message, n.newClose, n.newCancel,
                 none, none, none⟩,
           [Event.createStd title icon message])
        | none => (none, [])

/-- Lines 187–194: when the `notification` variable holds an object, wire
the three callback slots from the `callbacks` argument and push the handle
onto the cache; otherwise fall through. -/
def sendCreate (env : Env) (st2 : NotifyState) (title message icon : String)
    (callbacks : JSCallbacks) (evs1 : List Event) :
    Except Unit (SendRes × NotifyState × List Event) :=
  match dispatchCreate env title message icon with
  | (some h, evs2) =>
    let h1 := { h with onclick := callbacks.clickFn,
                       onclose := callbacks.closeFn,
                       onshow := callbacks.showFn }
    Except.ok (SendRes.done, { st2 with cached := st2.cached ++ [h1] },
               evs1 ++ evs2)
  | (none, evs2) => Except.ok (SendRes.done, st2, evs1 ++ evs2)

/-- Lines 155–158 followed by the creation: run `removeAll` when
`isRemoveAll` is truthy (an exception it raises propagates out of `send`),
then dispatch. -/
def sendAfterPerm (env : Env) (st1 : NotifyState) (title message icon : String)
    (callbacks : JSCallbacks) (isRemoveAll : Bool) :
    Except Unit (SendRes × NotifyState × List Event) :=
  match (if isRemoveAll then Notify.removeAll env st1 else (false, st1, [])) with
  | (true, _, _) => Except.error ()
  | (false, st2, evs1) => sendCreate env st2 title message icon callbacks evs1

/-- `Notify.prototype.send` (lines 146–195): `return false` unless
`permissionStatus()` is exactly the string `'granted'`; an exception from
`permissionStatus` propagates. -/
def Notify.send (env : Env) (st : NotifyState) (title message icon : String)
    (callbacks : JSCallbacks) (isRemoveAll : Bool) :
    Except Unit (SendRes × NotifyState × List Event) :=
  match Notify.permissionStatus env st with
  | Except.error e => Except.error e
  | Except.ok (ps, st1) =>
    if ps = PermResult.status "granted" then
      sendAfterPerm env st1 title message icon callbacks isRemoveAll
    else
      Except.ok (SendRes.notGranted, st1, [])

/-- An environment with none of the four detectable backends: no standard
object, no webkit object, no `navigator.mozNotification`, and no callable
host-shell site-mode query. -/
def Env.lacksAllBackends (env : Env) : Bool :=
  env.notification.isNone && env.webkitNotifications.isNone
    && !env.navMozNotification
    && (match env.external with
        | none => true
        | some e => e.msIsSiteMode.isNone)

/-- Neither permission-request entry point is present: no webkit object
with `checkPermission`, and no standard object with `requestPermission`. -/
def Env.noRequestEntry (env : Env) : Bool :=
  (match env.webkitNotifications with
   | some wk => !wk.checkPermission
   | none => true)
  && (match env.notification with
      | some n => !n.requestPermission
      | none => true)

/-! ## Shared lemmas -/

theorem available_preserves_cached (env : Env) (st : NotifyState) :
    ((Notify.available env st).2).cached = st.cached := by
  unfold Notify.available
  cases st.supported <;> simp
  cases probeSupported env <;> simp

theorem permissionStatus_ok_state (env : Env) (st : NotifyState)
    (ps : PermResult) (st1 : NotifyState)
    (h : Notify.permissionStatus env st = Except.ok (ps, st1)) :
    st1 = (Notify.available env st).2 := by
  unfold Notify.permissionStatus at h
  split at h
  · cases hc : permChain env <;> rw [hc] at h
    · simp at h
    · simp only [Except.ok.injEq, Prod.mk.injEq] at h
      exact h.2.symm
  · simp only [Except.ok.injEq, Prod.mk.injEq] at h
    exact h.2.symm

theorem removeAll_ok_empty (env : Env) (st st' : NotifyState)
    (evs : List Event)
    (h : Notify.removeAll env st = (false, st', evs)) :
    st'.cached = [] := by
  unfold Notify.removeAll at h
  split at h
  next heq => cases h
  next heq =>
    injection h with h1 h2
    injection h2 with h2a
    rw [← h2a]

theorem removeAll_empty_noop (env : Env) (st : NotifyState)
    (h : st.cached = []) :
    Notify.removeAll env st = (false, st, []) := by
  obtain ⟨sup, cached⟩ := st
  simp only at h
  subst h
  rfl

/-! ## Claim theorems -/

/-- Claim C6: `removeAll` leaves the cache empty whenever it returns
normally, regardless of the prior cache size; calling it on an
already-empty cache is a no-op that does not throw (the `forEach` body
never runs, so nothing is dismissed, no event is produced and the state is
unchanged); consequently `removeAll` is idempotent. -/
theorem removeAll_empties_cache :
    (∀ (env : Env) (st st' : NotifyState) (evs : List Event),
        Notify.removeAll env st = (false, st', evs) → st'.cached = [])
  ∧ (∀ (env : Env) (st : NotifyState), st.cached = [] →
        Notify.removeAll env st = (false, st, []))
  ∧ (∀ (env : Env) (st st' : NotifyState) (evs : List Event),
        Notify.removeAll env st = (false, st', evs) →
        Notify.removeAll env st' = (false, st', [])) :=
  ⟨fun env st st' evs h => removeAll_ok_empty env st st' evs h,
   fun env st h => removeAll_empty_noop env st h,
   fun env st st' evs h =>
     removeAll_empty_noop env st' (removeAll_ok_empty env st st' evs h)⟩

/-- Witness for C6: a one-handle cache is emptied; the empty cache is a
fixed point. -/
theorem removeAll_empties_cache_witness :
    (⟨some true, []⟩ : NotifyState).cached = [] ∧
    Notify.removeAll ⟨none, none, false, none, none⟩ ⟨some true, []⟩ =
      (false, ⟨some true, []⟩, []) :=
  ⟨removeAll_empties_cache.1 ⟨none, none, false, none, none⟩
      ⟨some true, [⟨Creation.std "t" "i" "m", some true, none, none, some 3, none⟩]⟩
      ⟨some true, []⟩ [Event.handleClose] rfl,
   removeAll_empties_cache.2.1 ⟨none, none, false, none, none⟩ ⟨some true, []⟩ rfl⟩

/-- Claim C7: `available` is memoized.  After any call, `supported` holds
the returned boolean; once `supported` is set, every later call returns the
cached boolean and the unchanged state for EVERY environment, i.e. without
re-probing; and in an environment lacking all four detectable backends the
first call returns `false` (and caches it, so all repeated calls return
`false` by the second conjunct). -/
theorem available_memoized :
    (∀ (env : Env) (st : NotifyState),
        ((Notify.available env st).2).supported = some (Notify.available env st).1)
  ∧ (∀ (env : Env) (st : NotifyState) (b : Bool), st.supported = some b →
        Notify.available env st = (b, st))
  ∧ (∀ (env : Env) (st : NotifyState), st.supported = none →
        env.lacksAllBackends = true →
        Notify.available env st = (false, { st with supported := some false })) := by
  refine ⟨fun env st => ?_, fun env st b h => ?_, fun env st h1 h2 => ?_⟩
  · unfold Notify.available
    cases hs : st.supported
    · cases hp : probeSupported env <;> simp
    · simp [hs]
  · unfold Notify.available
    rw [h]
  · simp only [Env.lacksAllBackends, Bool.and_eq_true, Bool.not_eq_true',
      Option.isNone_iff_eq_none] at h2
    obtain ⟨⟨⟨hn, hw⟩, hm⟩, hext⟩ := h2
    unfold Notify.available probeSupported
    rw [h1, hn, hw, hm]
    cases hx : env.external with
    | none => simp
    | some e =>
      rw [hx] at hext
      simp only [Option.isNone_iff_eq_none] at hext
      simp [hext]

/-- Witness for C7: a memoized `true` is returned against a backend-less
environment (no re-probe), and the first call in a backend-less environment
returns `false` and caches it. -/
theorem available_memoized_witness :
    Notify.available ⟨none, none, false, none, none⟩ ⟨some true, []⟩ =
      (true, ⟨some true, []⟩) ∧
    Notify.available ⟨none, none, false, none, none⟩ ⟨none, []⟩ =
      (false, ⟨some false, []⟩) :=
  ⟨available_memoized.2.1 ⟨none, none, false, none, none⟩ ⟨some true, []⟩ true rfl,
   available_memoized.2.2 ⟨none, none, false, none, none⟩ ⟨none, []⟩ rfl (by decide)⟩

/-- Claim C8: when the capability probe throws (which happens exactly when
the probe has to call a `msIsSiteMode` that is absent), `available` catches
the exception, records `supported := false`, and returns `false` instead of
propagating.  `available` is total in the model — the only fallible
sub-expression is the probe, and this theorem shows the `catch` turns its
failure into "not supported". -/
theorem available_catches_probe_exception (env : Env) (st : NotifyState)
    (h1 : st.supported = none) (h2 : probeSupported env = Except.error ()) :
    Notify.available env st = (false, { st with supported := some false }) := by
  unfold Notify.available
  rw [h1, h2]

/-- Witness for C8: a host-shell object without a callable site-mode query
makes the probe throw, and `available` still returns `false`. -/
theorem available_catches_probe_exception_witness :
    probeSupported ⟨none, none, false, none, some ⟨none⟩⟩ = Except.error () ∧
    Notify.available ⟨none, none, false, none, some ⟨none⟩⟩ ⟨none, []⟩ =
      (false, ⟨some false, []⟩) :=
  ⟨rfl, available_catches_probe_exception ⟨none, none, false, none, some ⟨none⟩⟩
    ⟨none, []⟩ rfl rfl⟩

/-- Claim C3 (code bug): `removeAll` is NOT total.  With two cached
handles whose first has a `close` method that throws, the dismissal aborts
at the first handle: the exception propagates (first component `true`), the
second handle is never dismissed (no events at all, its `onclose` slot is
still attached), and the cache is NOT reset — both handles are still
cached, the first with its `onclose` detached by line 206. -/
theorem removeAll_abort_bug :
    Notify.removeAll ⟨none, none, false, none, none⟩
        ⟨some true,
         [⟨Creation.std "a" "i1" "b", some false, none, none, some 7, none⟩,
          ⟨Creation.std "c" "i2" "d", some true, none, none, some 8, none⟩]⟩ =
      (true,
       ⟨some true,
        [⟨Creation.std "a" "i1" "b", some false, none, none, none, none⟩,
         ⟨Creation.std "c" "i2" "d", some true, none, none, some 8, none⟩]⟩,
       []) := rfl

/-- Claim C2 (code bug): in an environment whose only backend is the
mobile-vendor object — present where detection looks, i.e.
`navigator.mozNotification` (lines 46 and 118), with `window.mozNotification`
absent as it is in the real mobile browser — `permissionStatus` reports
`granted`, yet `send` dispatches on `window.mozNotification` (line 175),
finds nothing, performs no creation call (empty event trace) and caches no
handle: the mobile-vendor factory is never invoked. -/
theorem send_mozOnly_bug :
    Notify.permissionStatus ⟨none, none, true, none, none⟩ ⟨none, []⟩ =
      Except.ok (PermResult.status "granted", ⟨some true, []⟩) ∧
    Notify.send ⟨none, none, true, none, none⟩ ⟨none, []⟩ "t" "m" "i"
        JSCallbacks.nonObject false =
      Except.ok (SendRes.done, ⟨some true, []⟩, []) :=
  ⟨rfl, rfl⟩

/-- Claim C1: whenever `permissionStatus()` returns something other than
`granted`, `send` returns `false` (`SendRes.notGranted`), produces no
events at all — so no notification is created and `removeAll` is not
invoked even with a truthy `clearAllFirst` — and the cached-handle
sequence is unchanged. -/
theorem send_denied_is_noop (env : Env) (st : NotifyState)
    (t m i : String) (cbs : JSCallbacks) (ra : Bool)
    (ps : PermResult) (st1 : NotifyState)
    (hps : Notify.permissionStatus env st = Except.ok (ps, st1))
    (hng : ps ≠ PermResult.status "granted") :
    Notify.send env st t m i cbs ra = Except.ok (SendRes.notGranted, st1, [])
      ∧ st1.cached = st.cached := by
  constructor
  · unfold Notify.send
    rw [hps]
    simp [hng]
  · rw [permissionStatus_ok_state env st ps st1 hps]
    exact available_preserves_cached env st

/-- Witness for C1: a standard backend whose permission is `denied`, with
`clearAllFirst` truthy; `send` returns `false` with no events and the
empty cache stays unchanged. -/
theorem send_denied_is_noop_witness :
    Notify.send ⟨some ⟨none, some "denied", true, some true, none⟩, none, false, none, none⟩
        ⟨none, []⟩ "t" "m" "i" JSCallbacks.nonObject true =
      Except.ok (SendRes.notGranted, ⟨some true, []⟩, []) ∧
    (⟨some true, []⟩ : NotifyState).cached = (⟨none, []⟩ : NotifyState).cached :=
  send_denied_is_noop
    ⟨some ⟨none, some "denied", true, some true, none⟩, none, false, none, none⟩
    ⟨none, []⟩ "t" "m" "i" JSCallbacks.nonObject true
    (PermResult.status "denied") ⟨some true, []⟩ rfl (by decide)

/-- Claim C9: `requestPermission` returns without delegating (no events,
hence the callback is never invoked and nothing throws) when `available()`
is false, and likewise when no present backend exposes a permission-request
entry point; and a non-callable callback argument is replaced by the no-op
before any delegation, so every delegation event produced for a
non-callable argument carries the no-op. -/
theorem requestPermission_noop_cases :
    (∀ (env : Env) (st : NotifyState) (cb : Option Nat),
        (Notify.available env st).1 = false →
        Notify.requestPermission env st cb = ((Notify.available env st).2, []))
  ∧ (∀ (env : Env) (st : NotifyState) (cb : Option Nat),
        env.noRequestEntry = true →
        Notify.requestPermission env st cb = ((Notify.available env st).2, []))
  ∧ (∀ (env : Env) (st : NotifyState),
        (Notify.requestPermission env st none).2 = []
        ∨ (Notify.requestPermission env st none).2 =
            [Event.webkitRequestPermission CbV.noop]
        ∨ (Notify.requestPermission env st none).2 =
            [Event.stdRequestPermission CbV.noop]) := by
  refine ⟨fun env st cb h => ?_, fun env st cb h => ?_, fun env st => ?_⟩
  · simp [Notify.requestPermission, h]
  · unfold Notify.requestPermission
    simp only [Env.noRequestEntry, Bool.and_eq_true, Bool.not_eq_true'] at h
    obtain ⟨h1, h2⟩ := h
    by_cases hav : (Notify.available env st).1 = true
    · rw [if_pos hav]
      cases hwk : env.webkitNotifications <;> cases hn : env.notification <;>
          rw [hwk] at h1 <;> rw [hn] at h2 <;> simp_all
    · rw [if_neg hav]
  · unfold Notify.requestPermission
    split
    · simp only
      repeat' split
      all_goals simp [toCallable]
    · simp

/-- Witness for C9: a backend-less environment (callback callable, never
delivered), and an environment whose webkit object lacks `checkPermission`
and whose standard object lacks `requestPermission` (no entry point). -/
theorem requestPermission_noop_cases_witness :
    Notify.requestPermission ⟨none, none, false, none, none⟩ ⟨none, []⟩ (some 5) =
      (⟨some false, []⟩, []) ∧
    Notify.requestPermission
        ⟨some ⟨none, some "granted", false, some true, none⟩,
         some ⟨false, none, some true⟩, false, none, none⟩ ⟨none, []⟩ (some 5) =
      (⟨some true, []⟩, []) :=
  ⟨requestPermission_noop_cases.1 ⟨none, none, false, none, none⟩ ⟨none, []⟩
      (some 5) rfl,
   requestPermission_noop_cases.2.1
      ⟨some ⟨none, some "granted", false, some true, none⟩,
       some ⟨false, none, some true⟩, false, none, none⟩ ⟨none, []⟩ (some 5) rfl⟩

/-- Claim C10: with permission granted and a handle-producing backend
present (no host-shell dispatch, and at least one of the webkit,
window-level moz, or standard backends), `send` with a non-object
`callbacks` argument (undefined, null, or a primitive — all boxed by
`Object(...)` into a property-less object) returns normally (`Except.ok`,
no exception), sets all three callback slots of the created handle to
null, and still appends the handle to the cache. -/
theorem send_nonObject_callbacks_safe (env : Env) (st : NotifyState)
    (t m i : String) (st1 : NotifyState)
    (hps : Notify.permissionStatus env st =
      Except.ok (PermResult.status "granted", st1))
    (hnoext : env.extHasSiteModeFn = false)
    (hback : env.webkitNotifications.isSome = true
        ∨ env.winMozNotification.isSome = true
        ∨ env.notification.isSome = true) :
    ∃ (h : Handle) (ev : Event),
      Notify.send env st t m i JSCallbacks.nonObject false =
        Except.ok (SendRes.done, { st1 with cached := st1.cached ++ [h] }, [ev])
      ∧ h.onclick = none ∧ h.onclose = none ∧ h.onshow = none := by
  have hsend : Notify.send env st t m i JSCallbacks.nonObject false =
      sendCreate env st1 t m i JSCallbacks.nonObject [] := by
    unfold Notify.send
    rw [hps]
    simp [sendAfterPerm]
  rw [hsend]
  unfold sendCreate dispatchCreate
  rw [hnoext]
  simp only [Bool.false_eq_true, if_false]
  cases hwk : env.webkitNotifications with
  | some wk => exact ⟨_, _, rfl, rfl, rfl, rfl⟩
  | none =>
    cases hmz : env.winMozNotification with
    | some mz => exact ⟨_, _, rfl, rfl, rfl, rfl⟩
    | none =>
      cases hn : env.notification with
      | some n => exact ⟨_, _, rfl, rfl, rfl, rfl⟩
      | none =>
        rw [hwk, hmz, hn] at hback
        simp at hback

/-- Witness for C10: standard backend, permission granted, callbacks
argument a non-object; the handle is cached with all slots null. -/
theorem send_nonObject_callbacks_safe_witness :
    ∃ (h : Handle) (ev : Event),
      Notify.send
          ⟨some ⟨none, some "granted", true, some true, none⟩, none, false, none, none⟩
          ⟨none, []⟩ "t" "m" "i" JSCallbacks.nonObject false =
        Except.ok (SendRes.done, ⟨some true, [h]⟩, [ev])
      ∧ h.onclick = none ∧ h.onclose = none ∧ h.onshow = none :=
  send_nonObject_callbacks_safe
    ⟨some ⟨none, some "granted", true, some true, none⟩, none, false, none, none⟩
    ⟨none, []⟩ "t" "m" "i" ⟨some true, []⟩ rfl rfl (Or.inr (Or.inr rfl))

/-- Claim C5: with permission granted, `send` with a truthy
`clearAllFirst` first runs `removeAll`; provided no cached handle's
dismissal throws, the cache is empty (size 0) in the state `st2` handed to
the backend-creation step, the creation events come strictly after the
dismissal events, and with a handle-producing backend the final cache is
exactly one handle. -/
theorem send_clearAllFirst_clears_then_creates (env : Env) (st : NotifyState)
    (t m i : String) (cbs : JSCallbacks) (st1 st2 : NotifyState)
    (evs1 : List Event)
    (hps : Notify.permissionStatus env st =
      Except.ok (PermResult.status "granted", st1))
    (hra : Notify.removeAll env st1 = (false, st2, evs1))
    (hnoext : env.extHasSiteModeFn = false)
    (hback : env.webkitNotifications.isSome = true
        ∨ env.winMozNotification.isSome = true
        ∨ env.notification.isSome = true) :
    st2.cached = [] ∧
    ∃ (h : Handle) (ev : Event),
      Notify.send env st t m i cbs true =
        Except.ok (SendRes.done, { st2 with cached := [h] }, evs1 ++ [ev]) := by
  have hc2 : st2.cached = [] := removeAll_ok_empty env st1 st2 evs1 hra
  refine ⟨hc2, ?_⟩
  have hsend : Notify.send env st t m i cbs true =
      sendCreate env st2 t m i cbs evs1 := by
    unfold Notify.send
    rw [hps]
    simp [sendAfterPerm, hra]
  rw [hsend]
  obtain ⟨sup2, c2⟩ := st2
  simp only at hc2
  subst hc2
  unfold sendCreate dispatchCreate
  rw [hnoext]
  simp only [Bool.false_eq_true, if_false]
  cases hwk : env.webkitNotifications with
  | some wk => exact ⟨_, _, rfl⟩
  | none =>
    cases hmz : env.winMozNotification with
    | some mz => exact ⟨_, _, rfl⟩
    | none =>
      cases hn : env.notification with
      | some n => exact ⟨_, _, rfl⟩
      | none =>
        rw [hwk, hmz, hn] at hback
        simp at hback

/-- Witness for C5: standard backend, permission granted, one cached
handle; `send` with `clearAllFirst` dismisses it (one close event), then
creates and caches exactly one new handle. -/
theorem send_clearAllFirst_clears_then_creates_witness :
    (⟨some true, []⟩ : NotifyState).cached = [] ∧
    ∃ (h : Handle) (ev : Event),
      Notify.send
          ⟨some ⟨none, some "granted", true, some true, none⟩, none, false, none, none⟩
          ⟨some true, [⟨Creation.std "x" "y" "z", some true, none, none, some 3, none⟩]⟩
          "t" "m" "i" JSCallbacks.nonObject true =
        Except.ok (SendRes.done, ⟨some true, [h]⟩, [Event.handleClose] ++ [ev]) :=
  send_clearAllFirst_clears_then_creates
    ⟨some ⟨none, some "granted", true, some true, none⟩, none, false, none, none⟩
    ⟨some true, [⟨Creation.std "x" "y" "z", some true, none, none, some 3, none⟩]⟩
    "t" "m" "i" JSCallbacks.nonObject
    ⟨some true, [⟨Creation.std "x" "y" "z", some true, none, none, some 3, none⟩]⟩
    ⟨some true, []⟩ [Event.handleClose] rfl rfl rfl (Or.inr (Or.inr rfl))

/-! ## Claim C4: `permissionStatus` against the claim's priority chain -/

/-- Branch 2 of the chain is inapplicable: the standard `permission`
property is absent or the falsy empty string. -/
def Env.permFalsy (env : Env) : Bool :=
  match env.notifPermission with
  | some p => if p = "" then true else false
  | none => true

/-- The tail of the chain (branches 3 and 4) throws when reached: no
mobile-vendor object, and a host-shell object present without a callable
site-mode query. -/
def Env.restThrows (env : Env) : Bool :=
  !env.navMozNotification
    && (match env.external with
        | some e => e.msIsSiteMode.isNone
        | none => false)

/-- The `permissionStatus` chain throws: the first two branches fall
through (no permission-level method, falsy permission property) and the
tail throws. -/
def Env.permThrows (env : Env) : Bool :=
  env.notifPermissionLevel.isNone && env.permFalsy && env.restThrows

/-- Modelled from the amended claim's words, not from the source: the tail
of the predicted priority chain — Granted when the mobile-vendor backend
is present, Granted or Default by host-shell site-mode when the host-shell
object exposes a callable site-mode query, and the empty status value when
none of the four backends match. -/
def specPermChainRest (env : Env) : String :=
  if env.navMozNotification then "granted"
  else
    match env.external with
    | some e =>
      match e.msIsSiteMode with
      | some true => "granted"
      | some false => "default"
      | none => ""
    | none => ""

/-- Modelled from the amended claim's words, not from the source: the
permission value predicted once `available()` is true — the first
applicable of the permission-level query result, the non-empty permission
property, and the tail `specPermChainRest`. -/
def specPermChain (env : Env) : String :=
  match env.notifPermissionLevel with
  | some s => s
  | none =>
    match env.notifPermission with
    | some p => if p = "" then specPermChainRest env else p
    | none => specPermChainRest env

theorem permChainRest_char (env : Env) :
    permChainRest env =
      if env.restThrows then Except.error ()
      else Except.ok (specPermChainRest env) := by
  unfold permChainRest Env.restThrows specPermChainRest
  cases env.navMozNotification
  · simp only [Bool.not_false, Bool.true_and, Bool.false_eq_true, if_false]
    cases env.external with
    | none => simp
    | some e =>
      cases hms : e.msIsSiteMode with
      | none => simp [hms]
      | some b => cases b <;> simp [hms]
  · simp

theorem permChain_char (env : Env) :
    permChain env =
      if env.permThrows then Except.error ()
      else Except.ok (specPermChain env) := by
  unfold permChain specPermChain Env.permThrows Env.permFalsy
  cases hpl : env.notifPermissionLevel with
  | some s => simp [hpl]
  | none =>
    cases hp : env.notifPermission with
    | none => simp [hpl, hp, permChainRest_char]
    | some p =>
      by_cases hpe : p = ""
      · simp [hpl, hp, hpe, permChainRest_char]
      · simp [hpl, hp, hpe]

/-- Claim C4 counterexample, three concrete inputs where the source
deviates from the claim as stated.
(1) webkit backend present (so `available()` is true) together with a
host-shell object lacking a callable `msIsSiteMode`: none of the claim's
four permission sources match, so the claim predicts the empty status
value — but line 123 calls the absent `msIsSiteMode()` and
`permissionStatus` throws instead of returning.
(2) webkit AND mobile-vendor objects both present: the mobile-vendor
backend is not the ONLY backend present, so the claim's third branch is
inapplicable and the claim predicts the empty status — but the code's
branch at line 118 only tests `navigator.mozNotification` and returns
`granted`.
(3) standard object with an empty-string `permission` property plus the
mobile-vendor object: the claim's second branch ("the synchronous
permission property") would return the property — but the empty string is
falsy, so the code skips to the mobile branch and returns `granted`. -/
theorem permissionStatus_claim_counterexample :
    Notify.permissionStatus ⟨none, some ⟨false, none, none⟩, false, none, some ⟨none⟩⟩
        ⟨none, []⟩ = Except.error () ∧
    Notify.permissionStatus ⟨none, some ⟨false, none, none⟩, true, none, none⟩
        ⟨none, []⟩ = Except.ok (PermResult.status "granted", ⟨some true, []⟩) ∧
    Notify.permissionStatus ⟨some ⟨none, some "", false, none, none⟩, none, true, none, none⟩
        ⟨none, []⟩ = Except.ok (PermResult.status "granted", ⟨some true, []⟩) :=
  ⟨rfl, rfl, rfl⟩

/-- Claim C4 (amended): `permissionStatus` returns `false`
(`PermResult.unsupported`) whenever `available()` is false.  Otherwise, if
the first two branches fall through and a host-shell object is present
without a callable site-mode query, it throws (`Except.error`, the
`Env.permThrows` case) instead of returning.  In every other case it
returns the first applicable of, in priority order: the result of the
synchronous permission-level query method, else the non-empty synchronous
permission property, else Granted when the mobile-vendor backend is
present, else Granted or Default according to host-shell site-mode; and
when none of the four backends match it returns the empty status value,
distinct from the three permission constants — exactly `specPermChain`,
the chain transcribed from the claim's words. -/
theorem permissionStatus_characterization (env : Env) (st : NotifyState) :
    Notify.permissionStatus env st =
      if (Notify.available env st).1 then
        (if env.permThrows then Except.error ()
         else Except.ok (PermResult.status (specPermChain env),
                         (Notify.available env st).2))
      else Except.ok (PermResult.unsupported, (Notify.available env st).2) := by
  unfold Notify.permissionStatus
  cases hav : (Notify.available env st).1
  · simp
  · simp only [if_true]
    rw [permChain_char env]
    by_cases ht : env.permThrows = true
    · rw [if_pos ht, if_pos ht]
    · rw [if_neg ht, if_neg ht]

end DN
